import Mathlib

/-!
Verification development for the `codesEsModule` repository, centred on the
hardware-fingerprint persistent identifier generator
(`src/uniqueUserID/main.mjs`, class `UniqueUserIDGenerator`) and the random
identifier generator (`src/generate-id/generateID.mjs`, class `GenerateID`).

The JavaScript source is shallowly embedded: the OS-introspection results,
the outcome of each external probe command, and the success of filesystem
reads/writes are packaged into an explicit environment `Env`; the single
storage file is an explicit state `FSState`.  `crypto.createHash('sha256')
... .digest('hex')` is embedded as a full executable SHA-256 over byte lists
(`sha256`, `hashString`), and `JSON.stringify` of the collected info object
as `canonicalString`.
-/

/-! ### SHA-256 (embedding of Node's `crypto.createHash('sha256').update(str).digest('hex')`)

Words are `Nat` reduced modulo `2^32` at every operation that can overflow.
-/

/-- Reduce to a 32-bit word. -/
def w32 (x : Nat) : Nat := x % 4294967296

/-- Right rotation of a 32-bit word (input assumed `< 2^32`). -/
def rotr32 (n x : Nat) : Nat := w32 ((x >>> n) ||| (x <<< (32 - n)))

/-- SHA-256 big sigma 0. -/
def bsig0 (x : Nat) : Nat := rotr32 2 x ^^^ rotr32 13 x ^^^ rotr32 22 x

/-- SHA-256 big sigma 1. -/
def bsig1 (x : Nat) : Nat := rotr32 6 x ^^^ rotr32 11 x ^^^ rotr32 25 x

/-- SHA-256 small sigma 0. -/
def ssig0 (x : Nat) : Nat := rotr32 7 x ^^^ rotr32 18 x ^^^ (x >>> 3)

/-- SHA-256 small sigma 1. -/
def ssig1 (x : Nat) : Nat := rotr32 17 x ^^^ rotr32 19 x ^^^ (x >>> 10)

/-- SHA-256 choice function; `¬x` is taken as xor with the 32-bit mask. -/
def chf (x y z : Nat) : Nat := (x &&& y) ^^^ ((x ^^^ 4294967295) &&& z)

/-- SHA-256 majority function. -/
def majf (x y z : Nat) : Nat := (x &&& y) ^^^ (x &&& z) ^^^ (y &&& z)

/-- The 64 SHA-256 round constants (decimal rendering of the standard
table). -/
def sha256K : List Nat :=
  [1116352408, 1899447441, 3049323471, 3921009573, 961987163,
   1508970993, 2453635748, 2870763221, 3624381080, 310598401,
   607225278, 1426881987, 1925078388, 2162078206, 2614888103,
   3248222580, 3835390401, 4022224774, 264347078, 604807628,
   770255983, 1249150122, 1555081692, 1996064986, 2554220882,
   2821834349, 2952996808, 3210313671, 3336571891, 3584528711,
   113926993, 338241895, 666307205, 773529912, 1294757372,
   1396182291, 1695183700, 1986661051, 2177026350, 2456956037,
   2730485921, 2820302411, 3259730800, 3345764771, 3516065817,
   3600352804, 4094571909, 275423344, 430227734, 506948616,
   659060556, 883997877, 958139571, 1322822218, 1537002063,
   1747873779, 1955562222, 2024104815, 2227730452, 2361852424,
   2428436474, 2756734187, 3204031479, 3329325298]

/-- The eight SHA-256 working registers / hash words. -/
structure Hash8 where
  a : Nat
  b : Nat
  c : Nat
  d : Nat
  e : Nat
  f : Nat
  g : Nat
  h : Nat

/-- SHA-256 initial hash value (decimal rendering of the standard
constants). -/
def sha256H0 : Hash8 :=
  ⟨1779033703, 3144134277, 1013904242, 2773480762,
   1359893119, 2600822924, 528734635, 1541459225⟩

/-- One SHA-256 compression round; `kw` pairs the round constant with the
schedule word. -/
def sha256Round (s : Hash8) (kw : Nat × Nat) : Hash8 :=
  let t1 := w32 (s.h + bsig1 s.e + chf s.e s.f s.g + kw.1 + kw.2)
  let t2 := w32 (bsig0 s.a + majf s.a s.b s.c)
  ⟨w32 (t1 + t2), s.a, s.b, s.c, w32 (s.d + t1), s.e, s.f, s.g⟩

/-- Split a list into consecutive chunks of `n` elements (`n > 0`). -/
def chunksOf (n : Nat) (l : List Nat) : List (List Nat) :=
  if h : l = [] ∨ n = 0 then []
  else l.take n :: chunksOf n (l.drop n)
termination_by l.length
decreasing_by
  simp only [List.length_drop]
  have hl : l ≠ [] := fun he => h (Or.inl he)
  have hn : n ≠ 0 := fun he => h (Or.inr he)
  have : 0 < l.length := List.length_pos.mpr hl
  omega

/-- Big-endian word from a list of bytes. -/
def wordOfBytes (b : List Nat) : Nat := b.foldl (fun acc x => acc * 256 + x) 0

/-- Extend a 16-word block to the full 64-word message schedule by appending
`n` further words. -/
def extendSchedule : List Nat → Nat → List Nat
  | w, 0 => w
  | w, n + 1 =>
    let i := w.length
    let wi := w32 (ssig1 (w.getD (i - 2) 0) + w.getD (i - 7) 0 +
                   ssig0 (w.getD (i - 15) 0) + w.getD (i - 16) 0)
    extendSchedule (w ++ [wi]) n

/-- Compress one 64-byte chunk into the running hash. -/
def sha256Compress (h : Hash8) (chunk : List Nat) : Hash8 :=
  let w := extendSchedule ((chunksOf 4 chunk).map wordOfBytes) 48
  let s := (sha256K.zip w).foldl sha256Round h
  ⟨w32 (h.a + s.a), w32 (h.b + s.b), w32 (h.c + s.c), w32 (h.d + s.d),
   w32 (h.e + s.e), w32 (h.f + s.f), w32 (h.g + s.g), w32 (h.h + s.h)⟩

/-- SHA-256 padding: append `0x80`, zero bytes to 56 mod 64, then the 64-bit
big-endian bit length. -/
def sha256Pad (msg : List Nat) : List Nat :=
  let l := msg.length
  let k := (119 - l % 64) % 64
  msg ++ 0x80 :: List.replicate k 0 ++
    (List.range 8).map (fun i => (8 * l) >>> (8 * (7 - i)) % 256)

/-- SHA-256 of a byte list, as eight 32-bit hash words. -/
def sha256 (msg : List Nat) : Hash8 :=
  (chunksOf 64 (sha256Pad msg)).foldl sha256Compress sha256H0

/-- UTF-8 encoding of a single character (Node hashes strings as UTF-8). -/
def utf8Char (c : Char) : List Nat :=
  let n := c.toNat
  if n < 0x80 then [n]
  else if n < 0x800 then [0xC0 ||| (n >>> 6), 0x80 ||| (n &&& 0x3F)]
  else if n < 0x10000 then
    [0xE0 ||| (n >>> 12), 0x80 ||| ((n >>> 6) &&& 0x3F), 0x80 ||| (n &&& 0x3F)]
  else
    [0xF0 ||| (n >>> 18), 0x80 ||| ((n >>> 12) &&& 0x3F),
     0x80 ||| ((n >>> 6) &&& 0x3F), 0x80 ||| (n &&& 0x3F)]

/-- UTF-8 bytes of a string. -/
def strBytes (s : String) : List Nat := s.data.flatMap utf8Char

/-- Lowercase hexadecimal digit for `n < 16`. -/
def hexDigit (n : Nat) : Char :=
  if n < 10 then Char.ofNat (48 + n) else Char.ofNat (87 + n)

/-- Eight lowercase hex characters of a 32-bit word, most significant first. -/
def wordHexChars (x : Nat) : List Char :=
  (List.range 8).map (fun i => hexDigit (x >>> (4 * (7 - i)) % 16))

/-- Render the eight hash words as the 64-character lowercase hex digest
(`.digest('hex')`). -/
def hexOfHash8 (h : Hash8) : String :=
  String.mk (([h.a, h.b, h.c, h.d, h.e, h.f, h.g, h.h]).flatMap wordHexChars)

/-- Embedding of `UniqueUserIDGenerator.hashString`:
`crypto.createHash('sha256').update(str).digest('hex')`. -/
def hashString (str : String) : String := hexOfHash8 (sha256 (strBytes str))

/-! ### JSON serialization (embedding of `JSON.stringify` on the info object)

`JSON.stringify` writes the object's own enumerable keys in insertion order;
the embedding keeps the universal fields in declaration order followed by the
platform-conditional fields in their assignment order.
-/

/-- JSON escaping of one character, as `JSON.stringify` performs it. -/
def jsonEscapeChar (c : Char) : String :=
  if c = '"' then "\\\""
  else if c = '\\' then "\\\\"
  else if c = Char.ofNat 8 then "\\b"
  else if c = Char.ofNat 12 then "\\f"
  else if c = Char.ofNat 10 then "\\n"
  else if c = Char.ofNat 13 then "\\r"
  else if c = Char.ofNat 9 then "\\t"
  else if c.toNat < 32 then
    "\\u00" ++ String.mk [hexDigit (c.toNat / 16), hexDigit (c.toNat % 16)]
  else String.mk [c]

/-- JSON escaping of a string body. -/
def jsonEscape (s : String) : String := String.join (s.data.map jsonEscapeChar)

/-- A JSON string literal. -/
def jstr (s : String) : String := "\"" ++ jsonEscape s ++ "\""

/-- A JSON array of string literals. -/
def jarr (l : List String) : String :=
  "[" ++ String.intercalate "," (l.map jstr) ++ "]"

/-! ### Data model of `UniqueUserIDGenerator` -/

/-- One entry of `os.networkInterfaces()`: the fields the source reads. -/
structure NetDetail where
  mac : String
  internal : Bool
deriving DecidableEq

/-- The environment a single `UniqueUserIDGenerator` call runs in: the
results of the `os` module calls, the outcome of each `execSync` probe
(`none` models a thrown exception, `some out` the raw stdout string), and
whether the filesystem read/write of the storage file succeed (`false`
models a thrown exception, caught by the source). -/
structure Env where
  platform : String
  release : String
  osType : String
  arch : String
  /-- `os.cpus()`, as the list of the model strings of each logical CPU. -/
  cpuModels : List String
  totalMemory : Nat
  hostname : String
  /-- `os.networkInterfaces()` in enumeration order. -/
  interfaces : List (String × List NetDetail)
  homedir : String
  winDiskSerial : Option String
  winBiosSerial : Option String
  winMotherboardUUID : Option String
  winCpuId : Option String
  linSystemUUID : Option String
  linBoardSerial : Option String
  linCpuInfo : Option String
  linDiskInfo : Option String
  macHardwareUUID : Option String
  macSerialNumber : Option String
  macModel : Option String
  readOk : Bool
  writeOk : Bool

/-- The storage file's observable data: its content and permission mode. -/
structure FileData where
  content : String
  mode : Nat
deriving DecidableEq

/-- Filesystem state: the file at the storage path, or `none` if absent. -/
structure FSState where
  file : Option FileData
deriving DecidableEq

/-- The constructor's `this.storageFile = path.join(os.homedir(),
'.unique_hw_id')`; `path.join` on a directory and a simple name is modelled
as separator concatenation. -/
def storageFile (e : Env) : String := e.homedir ++ "/.unique_hw_id"

/-- The collected info object: the ten universal fields and the
platform-conditional fields (absent unless assigned). -/
structure SystemInfo where
  platform : String
  release : String
  type : String
  arch : String
  cpus : Nat
  cpuModel : String
  totalMemory : Nat
  hostname : String
  networkInterfaces : List String
  homedir : String
  diskSerial : Option String := none
  biosSerial : Option String := none
  motherboardUUID : Option String := none
  cpuId : Option String := none
  systemUUID : Option String := none
  motherboardSerial : Option String := none
  cpuDetails : Option String := none
  mainDiskUUID : Option String := none
  hardwareUUID : Option String := none
  serialNumber : Option String := none
  modelIdentifier : Option String := none

/-- Embedding of `getNetworkMACs`: flatten the interface table, keep
non-internal entries whose MAC is not the all-zero placeholder, and sort
(JS `Array.prototype.sort` on these ASCII strings is the lexicographic
order, whose result is the unique sorted permutation). -/
def getNetworkMACs (interfaces : List (String × List NetDetail)) : List String :=
  let macs := ((interfaces.flatMap Prod.snd).filter
    (fun d => !d.internal && d.mac ≠ "00:00:00:00:00:00")).map NetDetail.mac
  List.insertionSort (· ≤ ·) macs

/-- The Windows probe post-processing `out.trim().split('\n')[1] || ''`. -/
def winParse (s : String) : String := (s.trim.splitOn "\n").getD 1 ""

/-- The macOS probe post-processing `out.trim().split(': ')[1] || ''`. -/
def macParse (s : String) : String := (s.trim.splitOn ": ").getD 1 ""

/-- The `win32` branch of `getSystemInfo`: the four `wmic` probes run inside
one `try` block, so the first failing probe aborts the block and leaves its
own field and every later field unassigned. -/
def winFields (e : Env) (i : SystemInfo) : SystemInfo :=
  match e.winDiskSerial with
  | none => i
  | some v1 =>
    let i1 := { i with diskSerial := some (winParse v1) }
    match e.winBiosSerial with
    | none => i1
    | some v2 =>
      let i2 := { i1 with biosSerial := some (winParse v2) }
      match e.winMotherboardUUID with
      | none => i2
      | some v3 =>
        let i3 := { i2 with motherboardUUID := some (winParse v3) }
        match e.winCpuId with
        | none => i3
        | some v4 => { i3 with cpuId := some (winParse v4) }

/-- The `linux` branch of `getSystemInfo`: four probes in one `try` block;
each stores the trimmed command output directly. -/
def linuxFields (e : Env) (i : SystemInfo) : SystemInfo :=
  match e.linSystemUUID with
  | none => i
  | some v1 =>
    let i1 := { i with systemUUID := some v1.trim }
    match e.linBoardSerial with
    | none => i1
    | some v2 =>
      let i2 := { i1 with motherboardSerial := some v2.trim }
      match e.linCpuInfo with
      | none => i2
      | some v3 =>
        let i3 := { i2 with cpuDetails := some v3.trim }
        match e.linDiskInfo with
        | none => i3
        | some v4 => { i3 with mainDiskUUID := some v4.trim }

/-- The `darwin` branch of `getSystemInfo`: three `system_profiler` probes in
one `try` block. -/
def darwinFields (e : Env) (i : SystemInfo) : SystemInfo :=
  match e.macHardwareUUID with
  | none => i
  | some v1 =>
    let i1 := { i with hardwareUUID := some (macParse v1) }
    match e.macSerialNumber with
    | none => i1
    | some v2 =>
      let i2 := { i1 with serialNumber := some (macParse v2) }
      match e.macModel with
      | none => i2
      | some v3 => { i2 with modelIdentifier := some (macParse v3) }

/-- The universal fields of the info object, with the guarded
`os.cpus()[0]?.model || ''`. -/
def baseInfo (e : Env) : SystemInfo :=
  { platform := e.platform
    release := e.release
    type := e.osType
    arch := e.arch
    cpus := e.cpuModels.length
    cpuModel := e.cpuModels.head?.getD ""
    totalMemory := e.totalMemory
    hostname := e.hostname
    networkInterfaces := getNetworkMACs e.interfaces
    homedir := e.homedir }

/-- The `if (os.platform() === 'win32')` guard. -/
def winStep (e : Env) (i : SystemInfo) : SystemInfo :=
  if e.platform = "win32" then winFields e i else i

/-- The `if (os.platform() === 'linux')` guard. -/
def linuxStep (e : Env) (i : SystemInfo) : SystemInfo :=
  if e.platform = "linux" then linuxFields e i else i

/-- The `if (os.platform() === 'darwin')` guard. -/
def darwinStep (e : Env) (i : SystemInfo) : SystemInfo :=
  if e.platform = "darwin" then darwinFields e i else i

/-- Embedding of `getSystemInfo`: the ten universal fields, then the three
platform guards applied in source order. -/
def getSystemInfo (e : Env) : SystemInfo :=
  darwinStep e (linuxStep e (winStep e (baseInfo e)))

/-- An optional JSON member: absent fields produce no pair. -/
def optField (k : String) (v : Option String) : List (String × String) :=
  match v with
  | none => []
  | some s => [(k, jstr s)]

/-- The ten universal members of the serialized info object, in insertion
order. -/
def universalPairs (i : SystemInfo) : List (String × String) :=
  [("platform", jstr i.platform), ("release", jstr i.release),
   ("type", jstr i.type), ("arch", jstr i.arch),
   ("cpus", toString i.cpus), ("cpuModel", jstr i.cpuModel),
   ("totalMemory", toString i.totalMemory), ("hostname", jstr i.hostname),
   ("networkInterfaces", jarr i.networkInterfaces), ("homedir", jstr i.homedir)]

/-- All members of the serialized info object, in insertion order. -/
def jsonPairs (i : SystemInfo) : List (String × String) :=
  universalPairs i
    ++ optField "diskSerial" i.diskSerial ++ optField "biosSerial" i.biosSerial
    ++ optField "motherboardUUID" i.motherboardUUID ++ optField "cpuId" i.cpuId
    ++ optField "systemUUID" i.systemUUID
    ++ optField "motherboardSerial" i.motherboardSerial
    ++ optField "cpuDetails" i.cpuDetails ++ optField "mainDiskUUID" i.mainDiskUUID
    ++ optField "hardwareUUID" i.hardwareUUID ++ optField "serialNumber" i.serialNumber
    ++ optField "modelIdentifier" i.modelIdentifier

/-- Embedding of `JSON.stringify(systemInfo)` (the `infoString` of
`generateID`). -/
def canonicalString (i : SystemInfo) : String :=
  "\x7b" ++ String.intercalate ","
    ((jsonPairs i).map (fun p => jstr p.1 ++ ":" ++ p.2)) ++ "\x7d"

/-! ### `generateID` and `verifyID` -/

/-- Result of one `generateID` call: the returned string, the new filesystem
state, whether `getSystemInfo` was invoked, and whether `writeFileSync` was
invoked. -/
structure GenResult where
  result : String
  state : FSState
  probed : Bool
  wrote : Bool
deriving DecidableEq

/-- The fingerprint-collect-hash-persist path of `generateID` (reached when
no stored ID is returned).  `writeFileSync` with `{ mode: 0o600 }` applies
the mode only when it creates the file; overwriting keeps the existing mode.
A failed write is caught and the freshly computed ID is still returned. -/
def generateFresh (e : Env) (s : FSState) : GenResult :=
  let info := getSystemInfo e
  let id := hashString (canonicalString info)
  let s2 : FSState :=
    if e.writeOk then
      { file := some { content := id,
                       mode := match s.file with
                               | some f => f.mode
                               | none => 0o600 } }
    else s
  { result := id, state := s2, probed := true, wrote := e.writeOk }

/-- Embedding of `generateID`: if `existsSync` reports the storage file and
`readFileSync` succeeds, its raw content is returned as-is; a read exception
is caught (logged) and control falls through to fresh generation, as does
the file-absent case. -/
def generateID (e : Env) (s : FSState) : GenResult :=
  match s.file with
  | some f => if e.readOk then { result := f.content, state := s, probed := false, wrote := false }
              else generateFresh e s
  | none => generateFresh e s

/-- Embedding of `verifyID`: false if the file is absent, false if reading
throws (caught), false if the content is empty (`!storedID`), true
otherwise. -/
def verifyID (e : Env) (s : FSState) : Bool :=
  match s.file with
  | none => false
  | some f => if e.readOk then (if f.content = "" then false else true) else false

/-! ### `GenerateID` (src/generate-id/generateID.mjs)

`generate()` draws on `Math.random()`, `Date.now()` and
`crypto.getRandomValues`; it is embedded as an oracle `gen : Nat → String`
giving the result of the n-th call (0-based), which also absorbs the
`this.maxLength += 2` mutation before the final call.
-/

/-- Embedding of `GenerateID.exists` for an array collection of plain
strings (`collection.includes(id)`); named `existsId` because `exists` is a
reserved word in Lean. -/
def existsId (id : String) (collection : List String) : Bool :=
  collection.contains id

/-- The `do { newId = generate(); attempts++ } while (exists(newId) &&
attempts < 100)` loop of `generateUnique`; `attempts` counts calls already
made, `fuel` bounds the recursion (the loop runs at most 100 times). Returns
the last drawn id and the final `attempts`. -/
def genLoop (gen : Nat → String) (coll : List String) :
    Nat → Nat → String × Nat
  | attempts, 0 => ("", attempts)
  | attempts, fuel + 1 =>
    let newId := gen attempts
    let attempts2 := attempts + 1
    if existsId newId coll ∧ attempts2 < 100 then genLoop gen coll attempts2 fuel
    else (newId, attempts2)

/-- Embedding of `GenerateID.generateUnique` on an array of strings: run the
probe loop; if it exhausted its 100 attempts, increase `maxLength` and
return one further `generate()` result without any `exists` check. -/
def generateUnique (gen : Nat → String) (coll : List String) : String :=
  let r := genLoop gen coll 0 100
  if r.2 ≥ 100 then gen r.2 else r.1

/-! ### Helper lemmas about the digest format -/

/-- The sixteen lowercase hexadecimal characters. -/
def hexChars : List Char := "0123456789abcdef".data

theorem hexDigit_mem : ∀ n < 16, hexDigit n ∈ hexChars := by decide

theorem wordHexChars_length (x : Nat) : (wordHexChars x).length = 8 := by
  simp [wordHexChars]

theorem wordHexChars_mem (x : Nat) : ∀ c ∈ wordHexChars x, c ∈ hexChars := by
  intro c hc
  simp only [wordHexChars, List.mem_map] at hc
  obtain ⟨i, _, rfl⟩ := hc
  exact hexDigit_mem _ (Nat.mod_lt _ (by norm_num))

theorem hashString_length (s : String) : (hashString s).length = 64 := by
  show (String.mk _).length = 64
  simp [String.length, List.flatMap, wordHexChars_length]

theorem hashString_chars (s : String) : ∀ c ∈ (hashString s).data, c ∈ hexChars := by
  intro c hc
  have : c ∈ ([(sha256 (strBytes s)).a, (sha256 (strBytes s)).b, (sha256 (strBytes s)).c,
      (sha256 (strBytes s)).d, (sha256 (strBytes s)).e, (sha256 (strBytes s)).f,
      (sha256 (strBytes s)).g, (sha256 (strBytes s)).h]).flatMap wordHexChars := hc
  rw [List.mem_flatMap] at this
  obtain ⟨x, _, hx⟩ := this
  exact wordHexChars_mem x c hx

theorem hashString_ne_empty (s : String) : hashString s ≠ "" := by
  intro h
  have h64 := hashString_length s
  rw [h] at h64
  simp [String.length] at h64

/-! ### Concrete environments and states used by witnesses and counterexamples -/

/-- A concrete Linux environment whose four Linux probes succeed and whose
filesystem calls succeed. -/
def envLinux : Env :=
  { platform := "linux"
    release := "6.1.0"
    osType := "Linux"
    arch := "x64"
    cpuModels := ["cpu model 0"]
    totalMemory := 1024
    hostname := "hosta"
    interfaces := [("eth0", [⟨"aa:bb:cc:dd:ee:ff", false⟩]),
                   ("lo", [⟨"00:00:00:00:00:00", true⟩])]
    homedir := "/home/u"
    winDiskSerial := none
    winBiosSerial := none
    winMotherboardUUID := none
    winCpuId := none
    linSystemUUID := some "uuid-1"
    linBoardSerial := some "board-1"
    linCpuInfo := some "physical id : 0"
    linDiskInfo := some "disk-uuid-1"
    macHardwareUUID := none
    macSerialNumber := none
    macModel := none
    readOk := true
    writeOk := true }

/-- The absent-file state. -/
def stAbsent : FSState := ⟨none⟩

/-- A state holding a persisted non-empty value. -/
def stStored : FSState := ⟨some ⟨"abc123", 0o600⟩⟩

/-- A state holding an existing but empty storage file. -/
def stEmptyFile : FSState := ⟨some ⟨"", 0o600⟩⟩

/-! ### C6 — repeated calls return the same string -/

/-- C6: calling `generateID()` twice in sequence without deleting the
persisted file, the first call's persist having succeeded, returns the same
string both times. -/
theorem generateID_idempotent (e : Env) (s : FSState) (hw : e.writeOk = true) :
    (generateID e (generateID e s).state).result = (generateID e s).result := by
  cases hs : s.file with
  | some f =>
    cases hr : e.readOk with
    | true => simp [generateID, hs, hr]
    | false => simp [generateID, generateFresh, hs, hr, hw]
  | none =>
    cases hr : e.readOk with
    | true => simp [generateID, generateFresh, hs, hr, hw]
    | false => simp [generateID, generateFresh, hs, hr, hw]

/-- C6 witness: the theorem applied to the concrete Linux environment and
the absent-file state. -/
theorem generateID_idempotent_witness :
    (generateID envLinux (generateID envLinux stAbsent).state).result =
      (generateID envLinux stAbsent).result :=
  generateID_idempotent envLinux stAbsent rfl

/-! ### C7 — repeat resolution over a persisted value is side-effect-free -/

/-- C7: once a persisted non-empty value exists and reading succeeds,
`generateID()` leaves the storage file (content and permissions) untouched,
performs no write, and invokes no OS-introspection probe. -/
theorem generateID_persisted_frame (e : Env) (s : FSState) (f : FileData)
    (hr : e.readOk = true) (hs : s.file = some f) (_hne : f.content ≠ "") :
    (generateID e s).state = s ∧ (generateID e s).wrote = false ∧
      (generateID e s).probed = false := by
  simp [generateID, hs, hr]

/-- C7 witness: the theorem applied to the stored-value state. -/
theorem generateID_persisted_frame_witness :
    (generateID envLinux stStored).state = stStored ∧
      (generateID envLinux stStored).wrote = false ∧
      (generateID envLinux stStored).probed = false :=
  generateID_persisted_frame envLinux stStored ⟨"abc123", 0o600⟩ rfl rfl (by decide)

/-! ### C8 — `verifyID` checks existence and non-emptiness only -/

/-- C8: with filesystem reads succeeding, `verifyID()` returns false exactly
when the storage file is absent or empty, and true otherwise — no content
validation beyond non-emptiness is performed. -/
theorem verifyID_spec (e : Env) (s : FSState) (hr : e.readOk = true) :
    verifyID e s = true ↔ ∃ f, s.file = some f ∧ f.content ≠ "" := by
  cases hs : s.file with
  | some f =>
    by_cases hc : f.content = "" <;> simp [verifyID, hs, hr, hc]
  | none => simp [verifyID, hs]

/-- C8 witness: the theorem applied at a stored non-hexadecimal value
(`"abc123"` is 6 characters, not a well-formed 64-character digest, yet
`verifyID` accepts it). -/
theorem verifyID_spec_witness :
    verifyID envLinux stStored = true ∧
      (verifyID envLinux stEmptyFile = true ↔
        ∃ f, stEmptyFile.file = some f ∧ f.content ≠ "") :=
  ⟨(verifyID_spec envLinux stStored rfl).mpr ⟨⟨"abc123", 0o600⟩, rfl, by decide⟩,
   verifyID_spec envLinux stEmptyFile rfl⟩

/-! ### C9 — `generateUnique` does not guarantee absence from the collection -/

/-- C9: `GenerateID.generateUnique` can return an identifier already present
in the collection: when all 100 loop attempts collide, the final
`generate()` result (the 101st call) is returned without a further `exists`
check.  Witnessed by the oracle that always draws `"x"` against the
collection `["x"]`. -/
theorem generateUnique_can_collide :
    ∃ (gen : Nat → String) (coll : List String),
      generateUnique gen coll = gen 100 ∧
        existsId (generateUnique gen coll) coll = true :=
  ⟨fun _ => "x", ["x"], rfl, rfl⟩

/-! ### C5 — filesystem failures are non-fatal -/

/-- C5: filesystem failures during `generateID()` are caught and non-fatal:
with the write failing, the freshly computed digest is still returned (both
when the file is absent and when the read failed on an existing file), and
the storage file is left as it was. -/
theorem generateID_fs_failure_nonfatal (e : Env) (s : FSState)
    (hw : e.writeOk = false) :
    (s.file = none →
      (generateID e s).result = hashString (canonicalString (getSystemInfo e)) ∧
      (generateID e s).state = s) ∧
    (e.readOk = false →
      (generateID e s).result = hashString (canonicalString (getSystemInfo e)) ∧
      (generateID e s).state = s) := by
  constructor
  · intro hs
    simp [generateID, generateFresh, hs, hw]
  · intro hr
    cases hs : s.file with
    | some f => simp [generateID, generateFresh, hs, hr, hw]
    | none => simp [generateID, generateFresh, hs, hw]

/-- C5 witness: the theorem applied to the Linux environment with the write
failing on an absent file. -/
theorem generateID_fs_failure_nonfatal_witness :
    (generateID { envLinux with writeOk := false } stAbsent).result =
        hashString (canonicalString (getSystemInfo { envLinux with writeOk := false })) ∧
      (generateID { envLinux with writeOk := false } stAbsent).state = stAbsent :=
  (generateID_fs_failure_nonfatal { envLinux with writeOk := false } stAbsent rfl).1 rfl

/-! ### C1 — stored content is returned raw, but an empty file is NOT
treated as absent -/

/-- C1 counterexample: with an existing but empty storage file, `generateID`
returns the empty string without collecting any system information — it does
not treat the empty content as absent and does not compute a fresh digest
(every fresh digest has 64 characters). -/
theorem generateID_empty_file_countereg :
    stEmptyFile.file = some ⟨"", 0o600⟩ ∧
      (generateID envLinux stEmptyFile).result = "" ∧
      (generateID envLinux stEmptyFile).probed = false ∧
      (generateID envLinux stEmptyFile).result ≠
        hashString (canonicalString (getSystemInfo envLinux)) := by
  refine ⟨rfl, rfl, rfl, ?_⟩
  intro h
  exact hashString_ne_empty _ h.symm

/-- C1 (amended): whenever the storage file exists and reading succeeds,
`generateID()` returns exactly its raw content — untrimmed, unvalidated, and
even when empty — without collecting any system information; only when the
file is absent is a freshly computed fingerprint-based digest returned. -/
theorem generateID_reads_or_generates (e : Env) (s : FSState)
    (hr : e.readOk = true) :
    (∀ f, s.file = some f →
      (generateID e s).result = f.content ∧ (generateID e s).probed = false) ∧
    (s.file = none →
      (generateID e s).result = hashString (canonicalString (getSystemInfo e)) ∧
      (generateID e s).probed = true) := by
  constructor
  · intro f hs
    simp [generateID, hs, hr]
  · intro hs
    simp [generateID, generateFresh, hs]

/-- C1 witness: the theorem applied at the stored value `"abc123"`. -/
theorem generateID_reads_or_generates_witness :
    (generateID envLinux stStored).result = "abc123" ∧
      (generateID envLinux stStored).probed = false :=
  (generateID_reads_or_generates envLinux stStored rfl).1 ⟨"abc123", 0o600⟩ rfl

/-! ### C2 — fresh generation persists a 64-character lowercase hex digest -/

/-- C2: when no persisted file exists and the write succeeds, `generateID()`
collects the fingerprint, creates the storage file
`<homedir>/.unique_hw_id` holding exactly the returned digest with
permission mode `0o600`, and returns a 64-character lowercase hexadecimal
string. -/
theorem generateID_fresh_persist_hex (e : Env) (s : FSState)
    (hs : s.file = none) (hw : e.writeOk = true) :
    (generateID e s).state.file = some ⟨(generateID e s).result, 0o600⟩ ∧
      (generateID e s).wrote = true ∧ (generateID e s).probed = true ∧
      (generateID e s).result.length = 64 ∧
      (∀ c ∈ (generateID e s).result.data, c ∈ hexChars) ∧
      storageFile e = e.homedir ++ "/.unique_hw_id" := by
  have hres : (generateID e s).result = hashString (canonicalString (getSystemInfo e)) := by
    simp [generateID, generateFresh, hs]
  refine ⟨?_, ?_, ?_, ?_, ?_, rfl⟩
  · simp [generateID, generateFresh, hs, hw]
  · simp [generateID, generateFresh, hs, hw]
  · simp [generateID, generateFresh, hs]
  · rw [hres]; exact hashString_length _
  · rw [hres]; exact hashString_chars _

/-- C2 witness: the theorem applied to the Linux environment and the
absent-file state. -/
theorem generateID_fresh_persist_hex_witness :
    (generateID envLinux stAbsent).state.file =
        some ⟨(generateID envLinux stAbsent).result, 0o600⟩ ∧
      (generateID envLinux stAbsent).wrote = true ∧
      (generateID envLinux stAbsent).probed = true ∧
      (generateID envLinux stAbsent).result.length = 64 ∧
      (∀ c ∈ (generateID envLinux stAbsent).result.data, c ∈ hexChars) ∧
      storageFile envLinux = envLinux.homedir ++ "/.unique_hw_id" :=
  generateID_fresh_persist_hex envLinux stAbsent rfl rfl

/-! ### C4 — MAC enumeration order does not affect the identifier -/

theorem insertionSort_eq_of_perm {l1 l2 : List String} (h : l1.Perm l2) :
    List.insertionSort (· ≤ ·) l1 = List.insertionSort (· ≤ ·) l2 :=
  List.eq_of_perm_of_sorted
    ((List.perm_insertionSort _ l1).trans (h.trans (List.perm_insertionSort _ l2).symm))
    (List.sorted_insertionSort _ l1) (List.sorted_insertionSort _ l2)

theorem getNetworkMACs_perm {ifs1 ifs2 : List (String × List NetDetail)}
    (h : ifs1.Perm ifs2) : getNetworkMACs ifs1 = getNetworkMACs ifs2 := by
  unfold getNetworkMACs
  exact insertionSort_eq_of_perm
    (((h.flatMap_right Prod.snd).filter _).map NetDetail.mac)

/-- C4: for any permutation of the network-interface enumeration order,
`getNetworkMACs` returns the same lexicographically sorted list, and the
canonical fingerprint string and the resulting hash are identical. -/
theorem getNetworkMACs_perm_invariant (e : Env)
    (ifs2 : List (String × List NetDetail)) (h : e.interfaces.Perm ifs2) :
    getNetworkMACs ifs2 = getNetworkMACs e.interfaces ∧
      canonicalString (getSystemInfo { e with interfaces := ifs2 }) =
        canonicalString (getSystemInfo e) ∧
      hashString (canonicalString (getSystemInfo { e with interfaces := ifs2 })) =
        hashString (canonicalString (getSystemInfo e)) := by
  have hm : getNetworkMACs ifs2 = getNetworkMACs e.interfaces :=
    (getNetworkMACs_perm h).symm
  have hb : baseInfo { e with interfaces := ifs2 } = baseInfo e := by
    have h1 : baseInfo { e with interfaces := ifs2 } =
        { baseInfo e with networkInterfaces := getNetworkMACs ifs2 } := rfl
    rw [h1, hm]
    rfl
  have hi : getSystemInfo { e with interfaces := ifs2 } = getSystemInfo e := by
    show darwinStep e (linuxStep e (winStep e (baseInfo { e with interfaces := ifs2 }))) =
      darwinStep e (linuxStep e (winStep e (baseInfo e)))
    rw [hb]
  exact ⟨hm, by rw [hi], by rw [hi]⟩

/-- C4 witness: the theorem applied to the Linux environment with its two
interfaces enumerated in the opposite order. -/
theorem getNetworkMACs_perm_invariant_witness :
    getNetworkMACs [("lo", [⟨"00:00:00:00:00:00", true⟩]),
        ("eth0", [⟨"aa:bb:cc:dd:ee:ff", false⟩])] =
      getNetworkMACs envLinux.interfaces ∧
    canonicalString (getSystemInfo { envLinux with
        interfaces := [("lo", [⟨"00:00:00:00:00:00", true⟩]),
                       ("eth0", [⟨"aa:bb:cc:dd:ee:ff", false⟩])] }) =
      canonicalString (getSystemInfo envLinux) ∧
    hashString (canonicalString (getSystemInfo { envLinux with
        interfaces := [("lo", [⟨"00:00:00:00:00:00", true⟩]),
                       ("eth0", [⟨"aa:bb:cc:dd:ee:ff", false⟩])] })) =
      hashString (canonicalString (getSystemInfo envLinux)) :=
  getNetworkMACs_perm_invariant envLinux
    [("lo", [⟨"00:00:00:00:00:00", true⟩]), ("eth0", [⟨"aa:bb:cc:dd:ee:ff", false⟩])]
    (List.Perm.swap _ _ _)

/-! ### C10 — universal field collection is total -/

theorem winFields_preserves_universal (e : Env) (i : SystemInfo) :
    (winFields e i).cpuModel = i.cpuModel ∧ (winFields e i).cpus = i.cpus := by
  unfold winFields
  cases e.winDiskSerial <;> cases e.winBiosSerial <;>
    cases e.winMotherboardUUID <;> cases e.winCpuId <;> exact ⟨rfl, rfl⟩

theorem linuxFields_preserves_universal (e : Env) (i : SystemInfo) :
    (linuxFields e i).cpuModel = i.cpuModel ∧ (linuxFields e i).cpus = i.cpus := by
  unfold linuxFields
  cases e.linSystemUUID <;> cases e.linBoardSerial <;>
    cases e.linCpuInfo <;> cases e.linDiskInfo <;> exact ⟨rfl, rfl⟩

theorem darwinFields_preserves_universal (e : Env) (i : SystemInfo) :
    (darwinFields e i).cpuModel = i.cpuModel ∧ (darwinFields e i).cpus = i.cpus := by
  unfold darwinFields
  cases e.macHardwareUUID <;> cases e.macSerialNumber <;>
    cases e.macModel <;> exact ⟨rfl, rfl⟩

theorem getSystemInfo_cpu_fields (e : Env) :
    (getSystemInfo e).cpuModel = e.cpuModels.head?.getD "" ∧
      (getSystemInfo e).cpus = e.cpuModels.length := by
  unfold getSystemInfo darwinStep linuxStep winStep
  constructor <;>
    [skip; skip] <;>
    (split <;> split <;> split <;>
      simp [winFields_preserves_universal, linuxFields_preserves_universal,
        darwinFields_preserves_universal, baseInfo])

/-- The names of the ten universal fields. -/
def universalKeys : List String :=
  ["platform", "release", "type", "arch", "cpus", "cpuModel",
   "totalMemory", "hostname", "networkInterfaces", "homedir"]

/-- C10: collecting the universal fields never fails: with `os.cpus()`
empty, the guarded indexing yields `cpuModel = ""` and `cpus = 0`, and the
ten universal fields appear in every serialized fingerprint. -/
theorem getSystemInfo_universal_total (e : Env) :
    (e.cpuModels = [] →
      (getSystemInfo e).cpuModel = "" ∧ (getSystemInfo e).cpus = 0) ∧
    (∀ k ∈ universalKeys, k ∈ (jsonPairs (getSystemInfo e)).map Prod.fst) := by
  constructor
  · intro hc
    have h := getSystemInfo_cpu_fields e
    rw [hc] at h
    exact ⟨h.1, h.2⟩
  · intro k hk
    have h1 : k ∈ (universalPairs (getSystemInfo e)).map Prod.fst := by
      have : (universalPairs (getSystemInfo e)).map Prod.fst = universalKeys := rfl
      rw [this]; exact hk
    simp only [jsonPairs, List.append_assoc, List.map_append, List.mem_append]
    exact Or.inl h1

/-- C10 witness: the theorem applied to the Linux environment with an empty
CPU list. -/
theorem getSystemInfo_universal_total_witness :
    ((getSystemInfo { envLinux with cpuModels := [] }).cpuModel = "" ∧
      (getSystemInfo { envLinux with cpuModels := [] }).cpus = 0) ∧
    (∀ k ∈ universalKeys,
      k ∈ (jsonPairs (getSystemInfo { envLinux with cpuModels := [] })).map Prod.fst) :=
  ⟨(getSystemInfo_universal_total { envLinux with cpuModels := [] }).1 rfl,
   (getSystemInfo_universal_total { envLinux with cpuModels := [] }).2⟩

/-! ### C3 — probe failure handling

Each platform branch wraps all of its probes in a single `try` block, so the
first failing probe aborts the block: its own field and the fields of every
later probe in the same branch are omitted, even when those later probes
would succeed.
-/

/-- A Windows environment in which exactly the first probe (`wmic diskdrive
get SerialNumber`) fails and the other three probes would succeed. -/
def envWinFail1 : Env :=
  { envLinux with
    platform := "win32"
    linSystemUUID := none
    linBoardSerial := none
    linCpuInfo := none
    linDiskInfo := none
    winDiskSerial := none
    winBiosSerial := some "SerialNumber\nBIOS1"
    winMotherboardUUID := some "UUID\nMB1"
    winCpuId := some "ProcessorId\nCPU1" }

/-- C3 counterexample: on Windows with only the first probe failing, the
fingerprint also omits the fields of the three succeeding probes, because
the single `try` block aborts at the first failure — contradicting the claim
that only the failing probe's field is omitted. -/
theorem getSystemInfo_probe_isolation_countereg :
    envWinFail1.platform = "win32" ∧
      envWinFail1.winDiskSerial = none ∧
      envWinFail1.winBiosSerial = some "SerialNumber\nBIOS1" ∧
      envWinFail1.winMotherboardUUID = some "UUID\nMB1" ∧
      envWinFail1.winCpuId = some "ProcessorId\nCPU1" ∧
      (getSystemInfo envWinFail1).biosSerial = none ∧
      (getSystemInfo envWinFail1).motherboardUUID = none ∧
      (getSystemInfo envWinFail1).cpuId = none :=
  ⟨rfl, rfl, rfl, rfl, rfl, rfl, rfl, rfl⟩

/-- C3 (amended): if a platform-specific probe fails, `generateID()` still
completes and returns a valid 64-character hexadecimal digest, and the
fingerprint omits the failing probe's field together with the fields of all
later probes of the same platform branch, while retaining the fields of the
probes that ran before the failure. -/
theorem getSystemInfo_probe_failure_truncation (e : Env) (s : FSState)
    (hs : s.file = none) :
    ((generateID e s).result.length = 64 ∧
      ∀ c ∈ (generateID e s).result.data, c ∈ hexChars) ∧
    (e.platform = "win32" →
      ((e.winDiskSerial = none →
        (getSystemInfo e).diskSerial = none ∧ (getSystemInfo e).biosSerial = none ∧
          (getSystemInfo e).motherboardUUID = none ∧ (getSystemInfo e).cpuId = none) ∧
       (∀ v1, e.winDiskSerial = some v1 → e.winBiosSerial = none →
        (getSystemInfo e).diskSerial = some (winParse v1) ∧
          (getSystemInfo e).biosSerial = none ∧
          (getSystemInfo e).motherboardUUID = none ∧ (getSystemInfo e).cpuId = none) ∧
       (∀ v1 v2, e.winDiskSerial = some v1 → e.winBiosSerial = some v2 →
          e.winMotherboardUUID = none →
        (getSystemInfo e).diskSerial = some (winParse v1) ∧
          (getSystemInfo e).biosSerial = some (winParse v2) ∧
          (getSystemInfo e).motherboardUUID = none ∧ (getSystemInfo e).cpuId = none) ∧
       (∀ v1 v2 v3, e.winDiskSerial = some v1 → e.winBiosSerial = some v2 →
          e.winMotherboardUUID = some v3 → e.winCpuId = none →
        (getSystemInfo e).diskSerial = some (winParse v1) ∧
          (getSystemInfo e).biosSerial = some (winParse v2) ∧
          (getSystemInfo e).motherboardUUID = some (winParse v3) ∧
          (getSystemInfo e).cpuId = none))) ∧
    (e.platform = "linux" →
      ((e.linSystemUUID = none →
        (getSystemInfo e).systemUUID = none ∧ (getSystemInfo e).motherboardSerial = none ∧
          (getSystemInfo e).cpuDetails = none ∧ (getSystemInfo e).mainDiskUUID = none) ∧
       (∀ v1, e.linSystemUUID = some v1 → e.linBoardSerial = none →
        (getSystemInfo e).systemUUID = some v1.trim ∧
          (getSystemInfo e).motherboardSerial = none ∧
          (getSystemInfo e).cpuDetails = none ∧ (getSystemInfo e).mainDiskUUID = none) ∧
       (∀ v1 v2, e.linSystemUUID = some v1 → e.linBoardSerial = some v2 →
          e.linCpuInfo = none →
        (getSystemInfo e).systemUUID = some v1.trim ∧
          (getSystemInfo e).motherboardSerial = some v2.trim ∧
          (getSystemInfo e).cpuDetails = none ∧ (getSystemInfo e).mainDiskUUID = none) ∧
       (∀ v1 v2 v3, e.linSystemUUID = some v1 → e.linBoardSerial = some v2 →
          e.linCpuInfo = some v3 → e.linDiskInfo = none →
        (getSystemInfo e).systemUUID = some v1.trim ∧
          (getSystemInfo e).motherboardSerial = some v2.trim ∧
          (getSystemInfo e).cpuDetails = some v3.trim ∧
          (getSystemInfo e).mainDiskUUID = none))) ∧
    (e.platform = "darwin" →
      ((e.macHardwareUUID = none →
        (getSystemInfo e).hardwareUUID = none ∧ (getSystemInfo e).serialNumber = none ∧
          (getSystemInfo e).modelIdentifier = none) ∧
       (∀ v1, e.macHardwareUUID = some v1 → e.macSerialNumber = none →
        (getSystemInfo e).hardwareUUID = some (macParse v1) ∧
          (getSystemInfo e).serialNumber = none ∧
          (getSystemInfo e).modelIdentifier = none) ∧
       (∀ v1 v2, e.macHardwareUUID = some v1 → e.macSerialNumber = some v2 →
          e.macModel = none →
        (getSystemInfo e).hardwareUUID = some (macParse v1) ∧
          (getSystemInfo e).serialNumber = some (macParse v2) ∧
          (getSystemInfo e).modelIdentifier = none))) := by
  refine ⟨?_, ?_, ?_, ?_⟩
  · have hres : (generateID e s).result = hashString (canonicalString (getSystemInfo e)) := by
      simp [generateID, generateFresh, hs]
    rw [hres]
    exact ⟨hashString_length _, hashString_chars _⟩
  · intro hp
    refine ⟨?_, ?_, ?_, ?_⟩
    · intro h1
      simp [getSystemInfo, darwinStep, linuxStep, winStep, winFields, hp, h1, baseInfo]
    · intro v1 h1 h2
      simp [getSystemInfo, darwinStep, linuxStep, winStep, winFields, hp, h1, h2, baseInfo]
    · intro v1 v2 h1 h2 h3
      simp [getSystemInfo, darwinStep, linuxStep, winStep, winFields, hp, h1, h2, h3, baseInfo]
    · intro v1 v2 v3 h1 h2 h3 h4
      simp [getSystemInfo, darwinStep, linuxStep, winStep, winFields, hp, h1, h2, h3, h4, baseInfo]
  · intro hp
    refine ⟨?_, ?_, ?_, ?_⟩
    · intro h1
      simp [getSystemInfo, darwinStep, linuxStep, winStep, linuxFields, hp, h1, baseInfo]
    · intro v1 h1 h2
      simp [getSystemInfo, darwinStep, linuxStep, winStep, linuxFields, hp, h1, h2, baseInfo]
    · intro v1 v2 h1 h2 h3
      simp [getSystemInfo, darwinStep, linuxStep, winStep, linuxFields, hp, h1, h2, h3, baseInfo]
    · intro v1 v2 v3 h1 h2 h3 h4
      simp [getSystemInfo, darwinStep, linuxStep, winStep, linuxFields, hp, h1, h2, h3, h4, baseInfo]
  · intro hp
    refine ⟨?_, ?_, ?_⟩
    · intro h1
      simp [getSystemInfo, darwinStep, linuxStep, winStep, darwinFields, hp, h1, baseInfo]
    · intro v1 h1 h2
      simp [getSystemInfo, darwinStep, linuxStep, winStep, darwinFields, hp, h1, h2, baseInfo]
    · intro v1 v2 h1 h2 h3
      simp [getSystemInfo, darwinStep, linuxStep, winStep, darwinFields, hp, h1, h2, h3, baseInfo]

/-- C3 witness: the amended theorem applied to the failing-first-probe
Windows environment with an absent storage file. -/
theorem getSystemInfo_probe_failure_truncation_witness :
    (generateID envWinFail1 stAbsent).result.length = 64 ∧
      ((getSystemInfo envWinFail1).diskSerial = none ∧
        (getSystemInfo envWinFail1).biosSerial = none ∧
        (getSystemInfo envWinFail1).motherboardUUID = none ∧
        (getSystemInfo envWinFail1).cpuId = none) :=
  ⟨(getSystemInfo_probe_failure_truncation envWinFail1 stAbsent rfl).1.1,
   ((getSystemInfo_probe_failure_truncation envWinFail1 stAbsent rfl).2.1 rfl).1 rfl⟩
